import Mathlib

/-! The radie launchers.

A shallow embedding of the two launchers of the repository,
`src/executables/radie.cpp` (the runtime library is loaded at run time) and
`src/executables/standard_launcher.cpp` (the runtime is linked in), and the
properties of their argument splice, environment set-up and exit status.

Conventions of the embedding.

* A wide string (`wchar_t*`, `std::wstring`) is the list of its characters, a
  narrow string (`char*`) the list of its bytes.  The narrow literals
  `radie.cpp` inserts into its wide stream (`"PATH="`, `";"`) consist of basic
  characters, which the stream widens to the same characters.  The value
  `getenv` points to is the narrow copy the C runtime keeps of the variable,
  and the stream widens it byte by byte: both conversions are inputs.
* Objects of class type local to `wmain` are destroyed when `wmain` returns;
  a run records which ones, in the order of destruction.
* A pointer stored in an argument vector is the string it points to, or null.
* The vector made by `new wchar_t*[n]` is its number of entries together with
  the stores issued through it, in program order.  A store is recorded with the
  index it targets whether or not that index lies below the number of entries;
  a cell no store has reached holds no defined value.
* The operating system and the C runtime are inputs: what `GetModuleFileName`
  returns and writes, what `PathRemoveFileSpec` leaves, whether an assignment
  by `_wputenv` is carried out, what `LoadLibrary` and `GetProcAddress` return,
  and what the entry point does when called.
* `argc` is the length of `argv`; the `int` arithmetic `argc + 2` and `argc + 1`
  is done on natural numbers (a command line holds far fewer than `2^31`
  arguments).
* The build flag `ROOTRUN` is the Boolean parameter `rootrun`.  The flag
  `WINGUI` only selects where `argc` and `argv` are read from and has no
  counterpart.
-/

namespace Launcher

/-- Wide strings, as the sequence of their characters. -/
abbrev WString := List Char

/-- What a cell of an argument vector can hold: the null pointer or the address
of a string, identified with the string. -/
inductive Ptr
  | null
  | str (s : WString)
  deriving DecidableEq

/-- The read `argv[i]` of the vector the process was started with: the `argc`
arguments, and the null pointer that follows them. -/
def argvAt (argv : List WString) (i : Nat) : Ptr :=
  match argv.get? i with
  | some s => Ptr.str s
  | none => Ptr.null

/-- The vector obtained from `new wchar_t*[cap]`, with the stores made through
it so far (index, pointer), oldest first. -/
structure ArgBuf where
  cap : Nat
  stores : List (Nat × Ptr)
  deriving DecidableEq

namespace ArgBuf

/-- The allocation `new wchar_t*[n]`: `n` entries, none of them assigned. -/
def alloc (n : Nat) : ArgBuf := ⟨n, []⟩

/-- The assignment `newargv[i] = p`. -/
def store (b : ArgBuf) (i : Nat) (p : Ptr) : ArgBuf :=
  ⟨b.cap, b.stores ++ [(i, p)]⟩

end ArgBuf

/-- The pointer the latest store to index `i` left there, if any store went to
that index. -/
def lastStore (i : Nat) : List (Nat × Ptr) → Option Ptr
  | [] => none
  | st :: rest =>
    match lastStore i rest with
    | some q => some q
    | none => if st.1 = i then some st.2 else none

namespace ArgBuf

/-- The content of the cell at index `i`, counted from the start of the vector:
`none` when no store has reached it. -/
def cell (b : ArgBuf) (i : Nat) : Option Ptr := lastStore i b.stores

/-- The entries of the vector, index `0` up to `cap - 1`, as a reader of the
allocated storage finds them. -/
def view (b : ArgBuf) : List (Option Ptr) := (List.range b.cap).map b.cell

end ArgBuf

/-- The loop `for (int i = 1; i < argc; i++) newargv[i + 2] = argv[i];`, which
both launchers contain in this form: `i` runs through `1, ..., argc - 1`. -/
def copyLoop (argv : List WString) (argc : Nat) (newargv : ArgBuf) : ArgBuf :=
  (List.range' 1 (argc - 1)).foldl (fun b i => b.store (i + 2) (argvAt argv i)) newargv

/-- The behaviour of a function called as `int f(int, wchar_t**)`: the value it
returns, or `none` when it never returns. -/
abbrev Proc := Nat → ArgBuf → Option Int

/-- The environment table of the C runtime.  An assignment of the empty value
removes a variable and an absent variable reads as the null pointer, so the
empty value stands for an absent variable. -/
abbrev Env := WString → WString

/-- The call `_wputenv(s)` when it is carried out: `s` is split at its first
`=` into a name and a value and the name is given that value.  A string without
`=` is rejected and changes nothing. -/
def wputenv (env : Env) (s : WString) : Env :=
  match s.dropWhile (fun c => c != '=') with
  | [] => env
  | _ :: value => fun n => if n = s.takeWhile (fun c => c != '=') then value else env n

/-- Narrow strings, as the sequence of their bytes. -/
abbrev NString := List Nat

/-- The operating system and C runtime a launcher runs against. -/
structure OS where
  /-- The value `GetModuleFileName(NULL, buf, MAX_PATH)` returns. -/
  moduleFileNameRet : Nat
  /-- The string `GetModuleFileName` leaves in the buffer. -/
  moduleFileName : WString
  /-- The string `PathRemoveFileSpec` turns a path into. -/
  pathRemoveFileSpec : WString → WString
  /-- The environment the process starts with. -/
  env : Env
  /-- Whether `_wputenv` fails on a string (it then returns `-1` and the
  environment is left as it was). -/
  putenvFails : WString → Bool
  /-- The handle `LoadLibrary` returns for a path, `none` for `NULL`. -/
  loadLibrary : WString → Option Nat
  /-- The address `GetProcAddress` returns for a handle and a symbol name,
  `none` for `NULL`. -/
  getProcAddress : Option Nat → String → Option Proc
  /-- The narrow copy the C runtime makes of a value of the environment table
  (its conversion to the ANSI code page of the system). -/
  toAnsi : WString → NString
  /-- The wide character a wide stream makes of one narrow character. -/
  widen : Nat → Char

/-- The call `getenv(name)`: null (`none`) for an absent variable, otherwise a
pointer to the narrow copy of its value. -/
def OS.getenv (os : OS) (env : Env) (name : WString) : Option NString :=
  if env name = [] then none else some (os.toAnsi (env name))

/-- The effect of `_wputenv(s)` under `os`; the launcher discards the value the
call returns. -/
def OS.putenv (os : OS) (env : Env) (s : WString) : Env :=
  if os.putenvFails s then env else wputenv env s

/-- The calls a run makes that the properties speak of, in the order made. -/
inductive Event
  | getModuleFileName
  | wputenv (s : WString)
  | loadLibrary (path : WString)
  | getProcAddress (name : String)
  | pyMain (argc : Nat) (argv : ArgBuf)
  deriving DecidableEq

/-- How a run of `wmain` ends. -/
inductive Outcome
  /-- A `return` statement of `wmain` was reached with this value. -/
  | returned (code : Int)
  /-- The null pointer `getenv` returned was handed to the stream insertion. -/
  | nullInserted
  /-- The call went through a null function pointer. -/
  | nullCalled
  /-- The entry point was entered and never came back. -/
  | noReturn
  deriving DecidableEq

/-- A run of a launcher: the calls made, the environment it leaves, how it
ended, and the local objects destroyed between the return of the entry point
and the return of `wmain`, first destroyed first. -/
structure Run where
  trace : List Event
  env : Env
  outcome : Outcome
  destroyed : List String

/-- The end of a run in the statement `return Py_Main(newargc, newargv);`. -/
def callThrough (f : Option Proc) (newargc : Nat) (newargv : ArgBuf) : Outcome :=
  match f with
  | none => Outcome.nullCalled
  | some g =>
    match g newargc newargv with
    | some k => Outcome.returned k
    | none => Outcome.noReturn

namespace radie

/-- Source: `wchar_t SWITCH[] = L"-m";`. -/
def SWITCH : WString := "-m".toList

/-- Source: `wchar_t APP[] = L"radie.qt.viewer";`. -/
def APP : WString := "radie.qt.viewer".toList

/-- Source: `runtime_dir`, empty under `ROOTRUN` and `L"\\runtime"` otherwise. -/
def runtime_dir (rootrun : Bool) : WString :=
  if rootrun then [] else "\\runtime".toList

/-- Source: `wchar_t applications_dir[] = L"\\apps";`. -/
def applications_dir : WString := "\\apps".toList

/-- Source: `wchar_t python_dll[] = L"\\python36.dll";`. -/
def python_dll : WString := "\\python36.dll".toList

/-- Source: the string `python_home`. -/
def python_home (rootrun : Bool) (executable_dir : WString) : WString :=
  "PYTHONHOME=".toList ++ executable_dir ++ runtime_dir rootrun

/-- Source: the string `python_path`. -/
def python_path (executable_dir : WString) : WString :=
  "PYTHONPATH=".toList ++ executable_dir ++ applications_dir

/-- Source: the string `path_string`, the content of the stream `ss` after
`ss << "PATH=" << executable_dir << runtime_dir << ";" << getenv("PATH")`, where
`path` is the narrow string `getenv("PATH")` points to and `widen` what the
stream makes of each of its bytes. -/
def path_string (rootrun : Bool) (widen : Nat → Char) (executable_dir : WString)
    (path : NString) : WString :=
  "PATH=".toList ++ executable_dir ++ runtime_dir rootrun ++ ";".toList ++ path.map widen

/-- Source: the locals of `wmain` in `radie.cpp` that have a destructor, in
the order in which they are destroyed when `wmain` returns from its last
statement (the reverse of their declarations on lines 82 to 102). -/
def locals : List String :=
  ["python_dll_path", "path_string", "ss", "python_path", "python_home",
   "executable_dir_string"]

/-- The objects destroyed after the statement `return Py_Main(newargc, newargv);`
has its value: all of `locals` when the call came back, none when it did not. -/
def unwind (o : Outcome) : List String :=
  match o with
  | Outcome.returned _ => locals
  | _ => []

/-- Source: the string `python_dll_path`. -/
def python_dll_path (rootrun : Bool) (executable_dir : WString) : WString :=
  executable_dir ++ runtime_dir rootrun ++ python_dll

/-- Source: lines 109 to 119 of `radie.cpp`, the vector `newargv` at the call of
the entry point. -/
def newargv (argv : List WString) : ArgBuf :=
  let argc := argv.length
  let newargc := argc + 2
  let b := ArgBuf.alloc newargc
  let b := b.store 0 (argvAt argv 0)
  let b := b.store 1 (Ptr.str SWITCH)
  let b := b.store 2 (Ptr.str APP)
  copyLoop argv argc b

/-- Source: `wmain` (`wWinMain` under `WINGUI`) of `radie.cpp`. -/
def wmain (rootrun : Bool) (os : OS) (argv : List WString) : Run :=
  if os.moduleFileNameRet = 0 then
    ⟨[Event.getModuleFileName], os.env, Outcome.returned 1, []⟩
  else
    let executable_dir := os.pathRemoveFileSpec os.moduleFileName
    let env1 := os.putenv os.env (python_home rootrun executable_dir)
    let env2 := os.putenv env1 (python_path executable_dir)
    match os.getenv env2 "PATH".toList with
    | none =>
      ⟨[Event.getModuleFileName,
        Event.wputenv (python_home rootrun executable_dir),
        Event.wputenv (python_path executable_dir)], env2, Outcome.nullInserted, []⟩
    | some v =>
      let env3 := os.putenv env2 (path_string rootrun os.widen executable_dir v)
      let hGetProcIDDLL := os.loadLibrary (python_dll_path rootrun executable_dir)
      let Py_Main := os.getProcAddress hGetProcIDDLL "Py_Main"
      let newargc := argv.length + 2
      ⟨[Event.getModuleFileName,
        Event.wputenv (python_home rootrun executable_dir),
        Event.wputenv (python_path executable_dir),
        Event.wputenv (path_string rootrun os.widen executable_dir v),
        Event.loadLibrary (python_dll_path rootrun executable_dir),
        Event.getProcAddress "Py_Main",
        Event.getProcAddress "Py_SetPath",
        Event.pyMain newargc (newargv argv)],
       env3, callThrough Py_Main newargc (newargv argv),
       unwind (callThrough Py_Main newargc (newargv argv))⟩

end radie

namespace standard_launcher

/-- Source: lines 37 to 53 of `standard_launcher.cpp`, the vector `newargv` at
the call of the entry point; `executable_name` is the content of the buffer of
that name. -/
def newargv (argv : List WString) (executable_name : WString) : ArgBuf :=
  let argc := argv.length
  let newargc := argc + 1
  let b := ArgBuf.alloc newargc
  let b := b.store 0 (argvAt argv 0)
  let b := b.store 1 (Ptr.str executable_name)
  copyLoop argv argc b

/-- Source: `wmain` (`wWinMain` under `WINGUI`) of `standard_launcher.cpp`;
`Py_Main` is the entry point the program is linked against.  Its locals are an
`int`, a pointer and an array of `wchar_t`: none has a destructor. -/
def wmain (Py_Main : Proc) (os : OS) (argv : List WString) : Run :=
  if os.moduleFileNameRet = 0 then
    ⟨[Event.getModuleFileName], os.env, Outcome.returned 1, []⟩
  else
    let newargc := argv.length + 1
    ⟨[Event.getModuleFileName,
      Event.pyMain newargc (newargv argv os.moduleFileName)],
     os.env, callThrough (some Py_Main) newargc (newargv argv os.moduleFileName), []⟩

end standard_launcher

/-! ## Sample inputs -/

/-- A sample environment: only `PATH` is set. -/
def sampleEnv : Env := fun n => if n = "PATH".toList then "C:\\Windows".toList else []

/-- An entry point that returns the number of arguments it was given. -/
def countProc : Proc := fun n _ => some (n : Int)

/-- A sample narrow copy, as for a single-byte Western code page: a character
up to `U+00FF` becomes the byte of its code, any other character becomes `?`. -/
def sampleToAnsi (v : WString) : NString :=
  v.map (fun c => if c.toNat < 256 then c.toNat else 63)

/-- A sample widening: the character whose code is the byte. -/
def sampleWiden (b : Nat) : Char := Char.ofNat b

/-- A sample system: the launcher lives at `C:\radie\radie.exe`, every
assignment is carried out, the library loads and exports the entry point
only. -/
def sampleOS : OS where
  moduleFileNameRet := 18
  moduleFileName := "C:\\radie\\radie.exe".toList
  pathRemoveFileSpec := fun _ => "C:\\radie".toList
  env := sampleEnv
  putenvFails := fun _ => false
  loadLibrary := fun _ => some 1
  getProcAddress := fun h name =>
    if h = some 1 ∧ name = "Py_Main" then some countProc else none
  toAnsi := sampleToAnsi
  widen := sampleWiden


/-- The sample system with the runtime library missing: `LoadLibrary` returns
`NULL`, and so does `GetProcAddress`. -/
def sampleOSNoLibrary : OS where
  moduleFileNameRet := 18
  moduleFileName := "C:\\radie\\radie.exe".toList
  pathRemoveFileSpec := fun _ => "C:\\radie".toList
  env := sampleEnv
  putenvFails := fun _ => false
  loadLibrary := fun _ => none
  getProcAddress := fun _ _ => none
  toAnsi := sampleToAnsi
  widen := sampleWiden

/-- The sample system with a library that loads and exports `Py_SetPath` but
not `Py_Main`. -/
def sampleOSNoEntry : OS where
  moduleFileNameRet := 18
  moduleFileName := "C:\\radie\\radie.exe".toList
  pathRemoveFileSpec := fun _ => "C:\\radie".toList
  env := sampleEnv
  putenvFails := fun _ => false
  loadLibrary := fun _ => some 1
  getProcAddress := fun h name =>
    if h = some 1 ∧ name = "Py_SetPath" then some countProc else none
  toAnsi := sampleToAnsi
  widen := sampleWiden

/-- The sample system with the self-path query failing. -/
def sampleOSNoSelfPath : OS where
  moduleFileNameRet := 0
  moduleFileName := []
  pathRemoveFileSpec := fun p => p
  env := sampleEnv
  putenvFails := fun _ => false
  loadLibrary := fun _ => some 1
  getProcAddress := fun h name =>
    if h = some 1 ∧ name = "Py_Main" then some countProc else none
  toAnsi := sampleToAnsi
  widen := sampleWiden

/-- The system `os` with the outcomes of `_wputenv` replaced. -/
def OS.withPutenvFails (os : OS) (fails : WString → Bool) : OS :=
  ⟨os.moduleFileNameRet, os.moduleFileName, os.pathRemoveFileSpec, os.env, fails,
   os.loadLibrary, os.getProcAddress, os.toAnsi, os.widen⟩

/-- The system `os` with the symbol table of `GetProcAddress` replaced. -/
def OS.withGetProcAddress (os : OS) (g : Option Nat → String → Option Proc) : OS :=
  ⟨os.moduleFileNameRet, os.moduleFileName, os.pathRemoveFileSpec, os.env, os.putenvFails,
   os.loadLibrary, g, os.toAnsi, os.widen⟩

theorem foldl_store_cap (f : Nat → Nat) (g : Nat → Ptr) (l : List Nat) (b : ArgBuf) :
    (l.foldl (fun b i => b.store (f i) (g i)) b).cap = b.cap := by
  induction l generalizing b with
  | nil => rfl
  | cons i l ih => simp only [List.foldl_cons, ih]; rfl

theorem foldl_store_stores (f : Nat → Nat) (g : Nat → Ptr) (l : List Nat) (b : ArgBuf) :
    (l.foldl (fun b i => b.store (f i) (g i)) b).stores
      = b.stores ++ l.map (fun i => (f i, g i)) := by
  induction l generalizing b with
  | nil => simp
  | cons i l ih =>
    rw [List.foldl_cons, ih]
    simp [ArgBuf.store]

theorem copyLoop_cap (argv : List WString) (argc : Nat) (b : ArgBuf) :
    (copyLoop argv argc b).cap = b.cap :=
  foldl_store_cap (fun i => i + 2) (argvAt argv) _ b

theorem copyLoop_stores (argv : List WString) (argc : Nat) (b : ArgBuf) :
    (copyLoop argv argc b).stores
      = b.stores ++ (List.range' 1 (argc - 1)).map (fun i => (i + 2, argvAt argv i)) :=
  foldl_store_stores (fun i => i + 2) (argvAt argv) _ b

theorem lastStore_eq_none {i : Nat} {l : List (Nat × Ptr)} (h : ∀ st ∈ l, st.1 ≠ i) :
    lastStore i l = none := by
  induction l with
  | nil => rfl
  | cons st rest ih =>
    have h1 : lastStore i rest = none := ih (fun s hs => h s (List.mem_cons_of_mem _ hs))
    have h2 : st.1 ≠ i := h st (List.mem_cons_self _ _)
    simp [lastStore, h1, h2]

theorem lastStore_mem {i : Nat} {p : Ptr} {l : List (Nat × Ptr)} (h : lastStore i l = some p) :
    (i, p) ∈ l := by
  induction l with
  | nil => simp [lastStore] at h
  | cons st rest ih =>
    simp only [lastStore] at h
    cases hr : lastStore i rest with
    | some q =>
      rw [hr] at h
      simp only [Option.some.injEq] at h
      subst h
      exact List.mem_cons_of_mem _ (ih hr)
    | none =>
      rw [hr] at h
      by_cases hst : st.1 = i
      · simp only [hst, if_true, Option.some.injEq] at h
        have : st = (i, p) := by
          cases st; simp_all
        rw [this]; exact List.mem_cons_self _ _
      · simp [hst] at h

theorem lastStore_enumFrom (i : Nat) (ps : List Ptr) (k : Nat) :
    lastStore i (List.enumFrom k ps) = if k ≤ i then ps.get? (i - k) else none := by
  induction ps generalizing k with
  | nil => simp [lastStore]
  | cons p ps ih =>
    simp only [List.enumFrom_cons, lastStore, ih]
    by_cases h1 : k + 1 ≤ i
    · have h2 : k ≤ i := by omega
      have h3 : i - k = (i - (k + 1)) + 1 := by omega
      have h4 : ¬ k = i := by omega
      simp only [h1, h2, if_true, h3, List.get?_cons_succ, h4, if_false]
      cases ps.get? (i - (k + 1)) <;> rfl
    · by_cases h2 : k = i
      · subst h2
        simp
      · have h3 : ¬ k ≤ i := by omega
        simp [h1, h2, h3]

theorem range_map_argvAt (pre rest : List WString) :
    (List.range' pre.length rest.length).map (fun i => (i + 2, argvAt (pre ++ rest) i))
      = List.enumFrom (pre.length + 2) (rest.map Ptr.str) := by
  induction rest generalizing pre with
  | nil => simp
  | cons r rest ih =>
    have h := ih (pre ++ [r])
    simp only [List.length_append, List.length_singleton, List.append_assoc,
      List.singleton_append] at h
    simp only [List.length_cons, List.range'_succ, List.map_cons, List.enumFrom_cons]
    rw [h]
    have : argvAt (pre ++ r :: rest) pre.length = Ptr.str r := by
      have hg : (pre ++ r :: rest).get? pre.length = some r := by
        rw [List.get?_eq_getElem?, List.getElem?_append_right (Nat.le_refl _)]
        simp
      simp only [argvAt, hg]
    rw [this]


theorem range_map_get? (ps : List Ptr) :
    (List.range ps.length).map (fun i => ps.get? i) = ps.map some := by
  apply List.ext_getElem
  · simp
  · intro i h1 h2
    simp at h1
    simp [List.getElem?_eq_getElem h1]

theorem view_of_enum {b : ArgBuf} {ps : List Ptr} (hs : b.stores = List.enumFrom 0 ps)
    (hc : b.cap = ps.length) : b.view = ps.map some := by
  unfold ArgBuf.view ArgBuf.cell
  rw [hs, hc, ← range_map_get?]
  apply List.map_congr_left
  intro i _
  rw [lastStore_enumFrom]
  simp

theorem radie_newargv_cap (argv : List WString) :
    (radie.newargv argv).cap = argv.length + 2 := by
  simp only [radie.newargv, copyLoop_cap]
  rfl

theorem radie_newargv_stores_raw (argv : List WString) :
    (radie.newargv argv).stores
      = (0, argvAt argv 0) :: (1, Ptr.str radie.SWITCH) :: (2, Ptr.str radie.APP)
          :: (List.range' 1 (argv.length - 1)).map (fun i => (i + 2, argvAt argv i)) := by
  simp only [radie.newargv, copyLoop_stores]
  rfl

theorem radie_newargv_stores (a0 : WString) (rest : List WString) :
    (radie.newargv (a0 :: rest)).stores
      = List.enumFrom 0
          (Ptr.str a0 :: Ptr.str radie.SWITCH :: Ptr.str radie.APP :: rest.map Ptr.str) := by
  rw [radie_newargv_stores_raw]
  have h := range_map_argvAt [a0] rest
  simp only [List.length_singleton, List.singleton_append] at h
  simp only [List.length_cons, Nat.add_sub_cancel, h, List.enumFrom_cons]
  rfl

theorem radie_newargv_view (a0 : WString) (rest : List WString) :
    (radie.newargv (a0 :: rest)).view
      = (a0 :: radie.SWITCH :: radie.APP :: rest).map (fun s => some (Ptr.str s)) := by
  rw [view_of_enum (radie_newargv_stores a0 rest) (by rw [radie_newargv_cap]; simp)]
  simp


/-! ## The environment -/

theorem takeWhile_name (nm v : WString) (h : '=' ∉ nm) :
    (nm ++ '=' :: v).takeWhile (fun c => c != '=') = nm := by
  induction nm with
  | nil => simp
  | cons c nm ih =>
    have hc : c ≠ '=' := fun e => h (e ▸ List.mem_cons_self _ _)
    have hr : '=' ∉ nm := fun e => h (List.mem_cons_of_mem _ e)
    simp [List.takeWhile_cons, hc, ih hr]

theorem dropWhile_name (nm v : WString) (h : '=' ∉ nm) :
    (nm ++ '=' :: v).dropWhile (fun c => c != '=') = '=' :: v := by
  induction nm with
  | nil => simp
  | cons c nm ih =>
    have hc : c ≠ '=' := fun e => h (e ▸ List.mem_cons_self _ _)
    have hr : '=' ∉ nm := fun e => h (List.mem_cons_of_mem _ e)
    simp [List.dropWhile_cons, hc, ih hr]

theorem wputenv_assign (env : Env) (nm v : WString) (h : '=' ∉ nm) (n : WString) :
    wputenv env (nm ++ '=' :: v) n = if n = nm then v else env n := by
  unfold wputenv
  rw [dropWhile_name nm v h, takeWhile_name nm v h]

theorem python_home_eq (rootrun : Bool) (d : WString) :
    radie.python_home rootrun d
      = "PYTHONHOME".toList ++ '=' :: (d ++ radie.runtime_dir rootrun) := by
  simp [radie.python_home]

theorem python_path_eq (d : WString) :
    radie.python_path d = "PYTHONPATH".toList ++ '=' :: (d ++ radie.applications_dir) := by
  simp [radie.python_path]

theorem putenv_other (os : OS) (env : Env) (nm v n : WString) (h : '=' ∉ nm) (hn : n ≠ nm) :
    os.putenv env (nm ++ '=' :: v) n = env n := by
  unfold OS.putenv
  split
  · rfl
  · rw [wputenv_assign env nm v h, if_neg hn]

theorem putenv_done (os : OS) (env : Env) (nm v : WString) (h : '=' ∉ nm)
    (hok : os.putenvFails (nm ++ '=' :: v) = false) :
    os.putenv env (nm ++ '=' :: v) nm = v := by
  unfold OS.putenv
  rw [hok]
  simp [wputenv_assign env nm v h]


/-! ## The runs of `radie.cpp` -/

theorem radie_path_read (rootrun : Bool) (os : OS) (d : WString) :
    os.getenv (os.putenv (os.putenv os.env (radie.python_home rootrun d)) (radie.python_path d))
        "PATH".toList
      = os.getenv os.env "PATH".toList := by
  unfold OS.getenv
  rw [python_home_eq, python_path_eq,
    putenv_other os _ _ _ _ (by decide) (by decide),
    putenv_other os _ _ _ _ (by decide) (by decide)]

theorem radie_wmain_fail (rootrun : Bool) (os : OS) (argv : List WString)
    (hq : os.moduleFileNameRet = 0) :
    radie.wmain rootrun os argv
      = ⟨[Event.getModuleFileName], os.env, Outcome.returned 1, []⟩ := by
  unfold radie.wmain
  rw [if_pos hq]

theorem radie_wmain_nopath (rootrun : Bool) (os : OS) (argv : List WString)
    (hq : os.moduleFileNameRet ≠ 0) (hp : os.getenv os.env "PATH".toList = none) :
    radie.wmain rootrun os argv
      = ⟨[Event.getModuleFileName,
          Event.wputenv (radie.python_home rootrun (os.pathRemoveFileSpec os.moduleFileName)),
          Event.wputenv (radie.python_path (os.pathRemoveFileSpec os.moduleFileName))],
         os.putenv
           (os.putenv os.env
             (radie.python_home rootrun (os.pathRemoveFileSpec os.moduleFileName)))
           (radie.python_path (os.pathRemoveFileSpec os.moduleFileName)),
         Outcome.nullInserted, []⟩ := by
  unfold radie.wmain
  rw [if_neg hq]
  simp only [radie_path_read, hp]

theorem radie_wmain_ok (rootrun : Bool) (os : OS) (argv : List WString) (v : NString)
    (hq : os.moduleFileNameRet ≠ 0) (hp : os.getenv os.env "PATH".toList = some v) :
    radie.wmain rootrun os argv
      = ⟨[Event.getModuleFileName,
          Event.wputenv (radie.python_home rootrun (os.pathRemoveFileSpec os.moduleFileName)),
          Event.wputenv (radie.python_path (os.pathRemoveFileSpec os.moduleFileName)),
          Event.wputenv
            (radie.path_string rootrun os.widen (os.pathRemoveFileSpec os.moduleFileName) v),
          Event.loadLibrary
            (radie.python_dll_path rootrun (os.pathRemoveFileSpec os.moduleFileName)),
          Event.getProcAddress "Py_Main",
          Event.getProcAddress "Py_SetPath",
          Event.pyMain (argv.length + 2) (radie.newargv argv)],
         os.putenv
           (os.putenv
             (os.putenv os.env
               (radie.python_home rootrun (os.pathRemoveFileSpec os.moduleFileName)))
             (radie.python_path (os.pathRemoveFileSpec os.moduleFileName)))
           (radie.path_string rootrun os.widen (os.pathRemoveFileSpec os.moduleFileName) v),
         callThrough
           (os.getProcAddress
             (os.loadLibrary
               (radie.python_dll_path rootrun (os.pathRemoveFileSpec os.moduleFileName)))
             "Py_Main")
           (argv.length + 2) (radie.newargv argv),
         radie.unwind
           (callThrough
             (os.getProcAddress
               (os.loadLibrary
                 (radie.python_dll_path rootrun (os.pathRemoveFileSpec os.moduleFileName)))
               "Py_Main")
             (argv.length + 2) (radie.newargv argv))⟩ := by
  unfold radie.wmain
  rw [if_neg hq]
  simp only [radie_path_read, hp]

/-- Every run of `radie.cpp` in which the library is loaded got past the
self-path query and read a value of `PATH`. -/
theorem radie_load_inv (rootrun : Bool) (os : OS) (argv : List WString) (p : WString)
    (h : Event.loadLibrary p ∈ (radie.wmain rootrun os argv).trace) :
    os.moduleFileNameRet ≠ 0 ∧ ∃ v, os.getenv os.env "PATH".toList = some v := by
  by_cases hq : os.moduleFileNameRet = 0
  · rw [radie_wmain_fail rootrun os argv hq] at h
    simp at h
  · refine ⟨hq, ?_⟩
    cases hp : os.getenv os.env "PATH".toList with
    | none =>
      rw [radie_wmain_nopath rootrun os argv hq hp] at h
      simp at h
    | some v => exact ⟨v, rfl⟩

/-- Every run of `radie.cpp` that comes to the call of the entry point got past
the self-path query and read a value of `PATH`, and the call is made with
`argc + 2` and the vector built from `argv`. -/
theorem radie_call_inv (rootrun : Bool) (os : OS) (argv : List WString) (n : Nat) (b : ArgBuf)
    (h : Event.pyMain n b ∈ (radie.wmain rootrun os argv).trace) :
    os.moduleFileNameRet ≠ 0 ∧ (∃ v, os.getenv os.env "PATH".toList = some v) ∧
      n = argv.length + 2 ∧ b = radie.newargv argv := by
  by_cases hq : os.moduleFileNameRet = 0
  · rw [radie_wmain_fail rootrun os argv hq] at h
    simp at h
  · cases hp : os.getenv os.env "PATH".toList with
    | none =>
      rw [radie_wmain_nopath rootrun os argv hq hp] at h
      simp at h
    | some v =>
      rw [radie_wmain_ok rootrun os argv v hq hp] at h
      simp at h
      exact ⟨hq, ⟨v, rfl⟩, h.1, h.2⟩

/-! ## The runs of `standard_launcher.cpp` -/

theorem standard_wmain_fail (Py_Main : Proc) (os : OS) (argv : List WString)
    (hq : os.moduleFileNameRet = 0) :
    standard_launcher.wmain Py_Main os argv
      = ⟨[Event.getModuleFileName], os.env, Outcome.returned 1, []⟩ := by
  unfold standard_launcher.wmain
  rw [if_pos hq]

theorem standard_wmain_ok (Py_Main : Proc) (os : OS) (argv : List WString)
    (hq : os.moduleFileNameRet ≠ 0) :
    standard_launcher.wmain Py_Main os argv
      = ⟨[Event.getModuleFileName,
          Event.pyMain (argv.length + 1) (standard_launcher.newargv argv os.moduleFileName)],
         os.env,
         callThrough (some Py_Main) (argv.length + 1)
           (standard_launcher.newargv argv os.moduleFileName), []⟩ := by
  unfold standard_launcher.wmain
  rw [if_neg hq]

theorem standard_call_inv (Py_Main : Proc) (os : OS) (argv : List WString) (n : Nat)
    (b : ArgBuf) (h : Event.pyMain n b ∈ (standard_launcher.wmain Py_Main os argv).trace) :
    os.moduleFileNameRet ≠ 0 ∧ n = argv.length + 1 ∧
      b = standard_launcher.newargv argv os.moduleFileName := by
  by_cases hq : os.moduleFileNameRet = 0
  · rw [standard_wmain_fail Py_Main os argv hq] at h
    simp at h
  · rw [standard_wmain_ok Py_Main os argv hq] at h
    simp at h
    exact ⟨hq, h.1, h.2⟩

theorem standard_newargv_cap (argv : List WString) (s : WString) :
    (standard_launcher.newargv argv s).cap = argv.length + 1 := by
  simp only [standard_launcher.newargv, copyLoop_cap]
  rfl

theorem standard_newargv_stores (argv : List WString) (s : WString) :
    (standard_launcher.newargv argv s).stores
      = (0, argvAt argv 0) :: (1, Ptr.str s)
          :: (List.range' 1 (argv.length - 1)).map (fun i => (i + 2, argvAt argv i)) := by
  simp only [standard_launcher.newargv, copyLoop_stores]
  rfl


/-! ## The argument splice -/

theorem argvAt_of_lt (argv : List WString) (i : Nat) (h : i < argv.length) :
    argvAt argv i = Ptr.str (argv.get ⟨i, h⟩) := by
  simp only [argvAt, List.get?_eq_get h]

theorem argvAt_ne_null (argv : List WString) (i : Nat) (h : i < argv.length) :
    argvAt argv i ≠ Ptr.null := by
  rw [argvAt_of_lt argv i h]
  exact fun e => Ptr.noConfusion e

/-- Claim C1. Dynamic-load launcher (`radie.cpp`): whenever a run started with
the arguments `a0 :: rest` (so `n = rest.length + 1 ≥ 1`) calls the entry point,
the count it passes is `n + 2`, the vector it passes has `n + 2` entries, these
entries are `a0`, `-m`, `radie.qt.viewer` followed by `rest` in the original
order, the entry at index `i + 2` is `argv[i]` for every `1 ≤ i ≤ n - 1`, and
every store went to an index below the allocated length. -/
theorem C1_dynamic_splice (rootrun : Bool) (os : OS) (a0 : WString) (rest : List WString)
    (newargc : Nat) (b : ArgBuf)
    (hcall : Event.pyMain newargc b ∈ (radie.wmain rootrun os (a0 :: rest)).trace) :
    newargc = (a0 :: rest).length + 2 ∧
    b.cap = (a0 :: rest).length + 2 ∧
    b.view.length = (a0 :: rest).length + 2 ∧
    b.view = (a0 :: "-m".toList :: "radie.qt.viewer".toList :: rest).map
      (fun s => some (Ptr.str s)) ∧
    (∀ i, 1 ≤ i → i < (a0 :: rest).length →
      b.view.get? (i + 2) = some (some (argvAt (a0 :: rest) i))) ∧
    (∀ st ∈ b.stores, st.1 < b.cap) := by
  obtain ⟨_, _, hn, hb⟩ := radie_call_inv rootrun os (a0 :: rest) newargc b hcall
  subst hn hb
  have hv := radie_newargv_view a0 rest
  refine ⟨rfl, radie_newargv_cap _, ?_, hv, ?_, ?_⟩
  · rw [hv]; simp
  · intro i h1 h2
    rw [hv]
    obtain ⟨j, rfl⟩ : ∃ j, i = j + 1 := ⟨i - 1, by omega⟩
    have hj : j < rest.length := by simpa using h2
    simp [argvAt, List.getElem?_eq_getElem hj]
  · intro st hst
    rw [radie_newargv_stores] at hst
    rw [radie_newargv_cap]
    obtain ⟨i, p⟩ := st
    have := List.mem_enumFrom hst
    simp at this
    simp
    omega

/-- Witness of claim C1: the run on the sample system with two arguments. -/
theorem C1_dynamic_splice_witness :
    Event.pyMain 4 (radie.newargv ["radie.exe".toList, "x.csv".toList])
        ∈ (radie.wmain false sampleOS ["radie.exe".toList, "x.csv".toList]).trace ∧
    (radie.newargv ["radie.exe".toList, "x.csv".toList]).view
      = ["radie.exe".toList, "-m".toList, "radie.qt.viewer".toList, "x.csv".toList].map
          (fun s => some (Ptr.str s)) :=
  ⟨by decide,
   (C1_dynamic_splice false sampleOS "radie.exe".toList ["x.csv".toList] 4
      (radie.newargv ["radie.exe".toList, "x.csv".toList]) (by decide)).2.2.2.1⟩


/-- Claim C2, evaluated where it fails. Static-link launcher
(`standard_launcher.cpp`) started with the two arguments `radie.exe x.csv`: the
entry point is called with the count `3` and a vector of `3` entries of which
index `2` was never assigned, and the pointer to `x.csv` was stored at index
`3`, which is not below the allocated length; the claim has `x.csv` at
index `2`. -/
theorem C2_static_splice_two_arguments :
    (standard_launcher.wmain countProc sampleOS ["radie.exe".toList, "x.csv".toList]).trace
      = [Event.getModuleFileName,
         Event.pyMain 3
           (standard_launcher.newargv ["radie.exe".toList, "x.csv".toList]
             "C:\\radie\\radie.exe".toList)] ∧
    (standard_launcher.newargv ["radie.exe".toList, "x.csv".toList]
        "C:\\radie\\radie.exe".toList).cap = 3 ∧
    (standard_launcher.newargv ["radie.exe".toList, "x.csv".toList]
        "C:\\radie\\radie.exe".toList).view
      = [some (Ptr.str "radie.exe".toList), some (Ptr.str "C:\\radie\\radie.exe".toList),
         none] ∧
    (standard_launcher.newargv ["radie.exe".toList, "x.csv".toList]
        "C:\\radie\\radie.exe".toList).stores
      = [(0, Ptr.str "radie.exe".toList), (1, Ptr.str "C:\\radie\\radie.exe".toList),
         (3, Ptr.str "x.csv".toList)] := by
  decide

/-- Claim C10. Write indices of the two builders, for every `argv` with
`argc ≥ 1`. Static-link launcher: the vector has `argc + 1` entries; the stores
are index `0`, index `1`, and `argv[i]` to index `i + 2` for `1 ≤ i < argc`, and
this is the vector the entry point is called with; for `argc = 1` every
allocated entry is assigned and every store is in bounds; for `argc ≥ 2` index
`2` is never assigned and `argv[argc - 1]` is stored at index `argc + 1`, which
is not below the allocated length. Dynamic-load launcher: the vector has
`argc + 2` entries and the indices stored to are `0, 1, ..., argc + 1`, each
once. -/
theorem C10_write_indices (argv : List WString) (s : WString) (hn : 1 ≤ argv.length) :
    (standard_launcher.newargv argv s).cap = argv.length + 1 ∧
    (standard_launcher.newargv argv s).stores
      = (0, argvAt argv 0) :: (1, Ptr.str s)
          :: (List.range' 1 (argv.length - 1)).map (fun i => (i + 2, argvAt argv i)) ∧
    (∀ (Py_Main : Proc) (os : OS), os.moduleFileNameRet ≠ 0 → os.moduleFileName = s →
      (standard_launcher.wmain Py_Main os argv).trace
        = [Event.getModuleFileName,
           Event.pyMain (argv.length + 1) (standard_launcher.newargv argv s)]) ∧
    (argv.length = 1 →
      (∀ i, i < (standard_launcher.newargv argv s).cap →
        (standard_launcher.newargv argv s).cell i ≠ none) ∧
      (∀ st ∈ (standard_launcher.newargv argv s).stores,
        st.1 < (standard_launcher.newargv argv s).cap)) ∧
    (2 ≤ argv.length →
      (∀ st ∈ (standard_launcher.newargv argv s).stores, st.1 ≠ 2) ∧
      (standard_launcher.newargv argv s).cell 2 = none ∧
      (argv.length + 1, argvAt argv (argv.length - 1))
        ∈ (standard_launcher.newargv argv s).stores ∧
      ¬ (argv.length + 1 < (standard_launcher.newargv argv s).cap)) ∧
    (radie.newargv argv).cap = argv.length + 2 ∧
    (radie.newargv argv).stores.map Prod.fst = List.range (argv.length + 2) := by
  have hnot2 : 2 ≤ argv.length → ∀ st ∈ (standard_launcher.newargv argv s).stores, st.1 ≠ 2 := by
    intro _ st hst
    rw [standard_newargv_stores] at hst
    simp only [List.mem_cons, List.mem_map, List.mem_range'_1] at hst
    rcases hst with rfl | rfl | ⟨i, ⟨hi, _⟩, rfl⟩
    · simp
    · simp
    · simp; omega
  refine ⟨standard_newargv_cap argv s, standard_newargv_stores argv s, ?_, ?_, ?_,
    radie_newargv_cap argv, ?_⟩
  · intro Py_Main os hq hs
    rw [standard_wmain_ok Py_Main os argv hq, hs]
  · intro h1
    obtain ⟨a, rfl⟩ := List.length_eq_one.mp h1
    refine ⟨?_, ?_⟩
    · intro i hi
      rw [standard_newargv_cap] at hi
      simp only [ArgBuf.cell, standard_newargv_stores]
      have : i = 0 ∨ i = 1 := by simp at hi; omega
      rcases this with rfl | rfl <;> simp [lastStore]
    · intro st hst
      rw [standard_newargv_cap]
      rw [standard_newargv_stores] at hst
      simp at hst
      rcases hst with rfl | rfl <;> simp
  · intro h2
    refine ⟨hnot2 h2, lastStore_eq_none (hnot2 h2), ?_, ?_⟩
    · rw [standard_newargv_stores]
      simp only [List.mem_cons, List.mem_map, List.mem_range'_1]
      refine Or.inr (Or.inr ⟨argv.length - 1, ⟨by omega, by omega⟩, ?_⟩)
      have : argv.length - 1 + 2 = argv.length + 1 := by omega
      rw [this]
    · rw [standard_newargv_cap]
      omega
  · obtain ⟨a0, rest, rfl⟩ : ∃ a0 rest, argv = a0 :: rest := by
      cases argv with
      | nil => simp at hn
      | cons a0 rest => exact ⟨a0, rest, rfl⟩
    rw [radie_newargv_stores, List.enumFrom_map_fst, List.range_eq_range']
    simp

/-- Witness of claim C10: one argument after the program name. -/
theorem C10_write_indices_witness :
    1 ≤ ["radie.exe".toList, "x.csv".toList].length ∧
    (standard_launcher.newargv ["radie.exe".toList, "x.csv".toList] "s".toList).cell 2 = none ∧
    (radie.newargv ["radie.exe".toList, "x.csv".toList]).stores.map Prod.fst = [0, 1, 2, 3] :=
  ⟨by decide,
   ((C10_write_indices ["radie.exe".toList, "x.csv".toList] "s".toList
      (by decide)).2.2.2.2.1 (by decide)).2.1,
   by decide⟩


/-- Claim C9, refuted as stated. With the single argument `radie.exe`, whose
vector has the null pointer at index `1`, the dynamic-load launcher does not
hand over a vector with a null entry at index `3` inside its storage, and the
static-link launcher does not hand over one with a null entry at index `2`
inside its storage. -/
theorem C9_null_termination_fails :
    argvAt ["radie.exe".toList] 1 = Ptr.null ∧
    ¬ (∀ b, Event.pyMain 3 b ∈ (radie.wmain false sampleOS ["radie.exe".toList]).trace →
        b.cell 3 = some Ptr.null ∧ 3 < b.cap) ∧
    ¬ (∀ b, Event.pyMain 2 b
          ∈ (standard_launcher.wmain countProc sampleOS ["radie.exe".toList]).trace →
        b.cell 2 = some Ptr.null ∧ 2 < b.cap) := by
  refine ⟨by decide, ?_, ?_⟩
  · intro h
    have h3 := (h (radie.newargv ["radie.exe".toList]) (by decide)).2
    revert h3
    decide
  · intro h
    have h3 := (h (standard_launcher.newargv ["radie.exe".toList] sampleOS.moduleFileName)
      (by decide)).2
    revert h3
    decide

/-- Claim C9, amended. For every `argv = a0 :: rest` (so `n = rest.length + 1`),
whenever a launcher calls the entry point, the count it passes equals the number
of entries it allocated (`n + 2` in the dynamic-load launcher, `n + 1` in the
static-link one), so the index one past the last argument is not inside the
allocated storage; no store of the launcher writes a null pointer, and the cell
at that index does not hold a null pointer written by the launcher. -/
theorem C9_no_terminator_stored (rootrun : Bool) (Py_Main : Proc) (os : OS) (a0 : WString)
    (rest : List WString) :
    (∀ newargc b, Event.pyMain newargc b ∈ (radie.wmain rootrun os (a0 :: rest)).trace →
      newargc = (a0 :: rest).length + 2 ∧ b.cap = newargc ∧ ¬ (newargc < b.cap) ∧
      (∀ st ∈ b.stores, st.2 ≠ Ptr.null) ∧ b.cell newargc ≠ some Ptr.null) ∧
    (∀ newargc b,
      Event.pyMain newargc b ∈ (standard_launcher.wmain Py_Main os (a0 :: rest)).trace →
      newargc = (a0 :: rest).length + 1 ∧ b.cap = newargc ∧ ¬ (newargc < b.cap) ∧
      (∀ st ∈ b.stores, st.2 ≠ Ptr.null) ∧ b.cell newargc ≠ some Ptr.null) := by
  constructor
  · intro newargc b hcall
    obtain ⟨_, _, hn, hb⟩ := radie_call_inv rootrun os (a0 :: rest) newargc b hcall
    subst hn hb
    have hnn : ∀ st ∈ (radie.newargv (a0 :: rest)).stores, st.2 ≠ Ptr.null := by
      intro st hst
      rw [radie_newargv_stores] at hst
      obtain ⟨i, p⟩ := st
      have hp : p ∈ Ptr.str a0 :: Ptr.str radie.SWITCH :: Ptr.str radie.APP
          :: rest.map Ptr.str := by
        rw [(List.mem_enumFrom hst).2.2]
        exact List.getElem_mem _
      simp only [List.mem_cons, List.mem_map] at hp
      rcases hp with rfl | rfl | rfl | ⟨r, _, rfl⟩ <;> exact fun e => Ptr.noConfusion e
    refine ⟨rfl, radie_newargv_cap _, ?_, hnn, ?_⟩
    · rw [radie_newargv_cap]; omega
    · intro hc
      exact hnn _ (lastStore_mem hc) rfl
  · intro newargc b hcall
    obtain ⟨_, hn, hb⟩ := standard_call_inv Py_Main os (a0 :: rest) newargc b hcall
    subst hn hb
    have hnn : ∀ st ∈ (standard_launcher.newargv (a0 :: rest) os.moduleFileName).stores,
        st.2 ≠ Ptr.null := by
      intro st hst
      rw [standard_newargv_stores] at hst
      simp only [List.mem_cons, List.mem_map, List.mem_range'_1] at hst
      rcases hst with rfl | rfl | ⟨i, ⟨_, hi⟩, rfl⟩
      · exact argvAt_ne_null (a0 :: rest) 0 (Nat.succ_pos _)
      · exact fun e => Ptr.noConfusion e
      · exact argvAt_ne_null _ _ (by simp only [List.length_cons] at hi ⊢; omega)
    refine ⟨rfl, standard_newargv_cap _ _, ?_, hnn, ?_⟩
    · rw [standard_newargv_cap]; omega
    · intro hc
      exact hnn _ (lastStore_mem hc) rfl

/-- Witness of the amended claim C9: the dynamic-load launcher on the sample
system with two arguments. -/
theorem C9_no_terminator_stored_witness :
    Event.pyMain 4 (radie.newargv ["radie.exe".toList, "x.csv".toList])
        ∈ (radie.wmain false sampleOS ["radie.exe".toList, "x.csv".toList]).trace ∧
    (radie.newargv ["radie.exe".toList, "x.csv".toList]).cap = 4 ∧
    (radie.newargv ["radie.exe".toList, "x.csv".toList]).cell 4 ≠ some Ptr.null :=
  have h := (C9_no_terminator_stored false countProc sampleOS "radie.exe".toList
    ["x.csv".toList]).1 4 (radie.newargv ["radie.exe".toList, "x.csv".toList]) (by decide)
  ⟨by decide, h.2.1, h.2.2.2.2⟩


/-! ## Unchecked results of the load and of the symbol look-up -/

/-- The run of `radie.cpp` does not depend on what `GetProcAddress` returns for
any symbol other than `Py_Main`: the pointer for `Py_SetPath` is fetched and
never used. -/
theorem radie_wmain_only_py_main (rootrun : Bool) (os : OS)
    (g : Option Nat → String → Option Proc) (argv : List WString)
    (hg : ∀ h, g h "Py_Main" = os.getProcAddress h "Py_Main") :
    radie.wmain rootrun (os.withGetProcAddress g) argv = radie.wmain rootrun os argv := by
  unfold radie.wmain
  simp only [OS.withGetProcAddress, OS.putenv, OS.getenv, hg]

/-- Claim C3, evaluated where it fails. Dynamic-load launcher started as
`radie.exe` on a system where `LoadLibrary` returns `NULL` for
`C:\radie\runtime\python36.dll` (and `GetProcAddress` then returns `NULL`):
the run goes on through both symbol look-ups to the call statement and ends in
the call through the null pointer; no `return` of `wmain` is reached. -/
theorem C3_load_failure_run :
    sampleOSNoLibrary.loadLibrary "C:\\radie\\runtime\\python36.dll".toList = none ∧
    (radie.wmain false sampleOSNoLibrary ["radie.exe".toList]).trace
      = [Event.getModuleFileName,
         Event.wputenv "PYTHONHOME=C:\\radie\\runtime".toList,
         Event.wputenv "PYTHONPATH=C:\\radie\\apps".toList,
         Event.wputenv "PATH=C:\\radie\\runtime;C:\\Windows".toList,
         Event.loadLibrary "C:\\radie\\runtime\\python36.dll".toList,
         Event.getProcAddress "Py_Main",
         Event.getProcAddress "Py_SetPath",
         Event.pyMain 3 (radie.newargv ["radie.exe".toList])] ∧
    (radie.wmain false sampleOSNoLibrary ["radie.exe".toList]).outcome = Outcome.nullCalled ∧
    (∀ k, (radie.wmain false sampleOSNoLibrary ["radie.exe".toList]).outcome
      ≠ Outcome.returned k) := by
  refine ⟨by decide, by decide, by decide, ?_⟩
  intro k
  have h : (radie.wmain false sampleOSNoLibrary ["radie.exe".toList]).outcome
      = Outcome.nullCalled := by decide
  rw [h]
  exact fun e => Outcome.noConfusion e

/-- Claim C5, evaluated where it fails. Dynamic-load launcher started as
`radie.exe` on a system where the library loads and `GetProcAddress` returns
`NULL` for `Py_Main` (while `Py_SetPath` resolves): the run reaches the call
statement and ends in the call through the null pointer; no `return` of `wmain`
is reached. -/
theorem C5_missing_entry_run :
    sampleOSNoEntry.loadLibrary "C:\\radie\\runtime\\python36.dll".toList = some 1 ∧
    (sampleOSNoEntry.getProcAddress (some 1) "Py_Main").isNone = true ∧
    (sampleOSNoEntry.getProcAddress (some 1) "Py_SetPath").isSome = true ∧
    (radie.wmain false sampleOSNoEntry ["radie.exe".toList]).trace.getLast?
      = some (Event.pyMain 3 (radie.newargv ["radie.exe".toList])) ∧
    (radie.wmain false sampleOSNoEntry ["radie.exe".toList]).outcome = Outcome.nullCalled := by
  refine ⟨by decide, by decide, by decide, by decide, by decide⟩

/-! ## Failure of the self-path query -/

/-- Claim C4. In both launchers, if `GetModuleFileName` returns `0` the run
returns `1`, its only call is the self-path query (no environment assignment,
no library load, no symbol look-up, no call of the entry point) and the
environment is left as it was; and if it returns a non-zero value the run goes
on past the check: the dynamic-load launcher to the assignment of `PYTHONHOME`,
the static-link launcher to the call of the entry point. -/
theorem C4_self_path_failure (rootrun : Bool) (Py_Main : Proc) (os : OS)
    (argv : List WString) :
    (os.moduleFileNameRet = 0 →
      (radie.wmain rootrun os argv).outcome = Outcome.returned 1 ∧
      (radie.wmain rootrun os argv).trace = [Event.getModuleFileName] ∧
      (radie.wmain rootrun os argv).env = os.env ∧
      (standard_launcher.wmain Py_Main os argv).outcome = Outcome.returned 1 ∧
      (standard_launcher.wmain Py_Main os argv).trace = [Event.getModuleFileName] ∧
      (standard_launcher.wmain Py_Main os argv).env = os.env) ∧
    (os.moduleFileNameRet ≠ 0 →
      (∃ rest, (radie.wmain rootrun os argv).trace
        = Event.getModuleFileName
          :: Event.wputenv ("PYTHONHOME=".toList ++ os.pathRemoveFileSpec os.moduleFileName
              ++ radie.runtime_dir rootrun)
          :: rest) ∧
      (standard_launcher.wmain Py_Main os argv).trace
        = [Event.getModuleFileName,
           Event.pyMain (argv.length + 1)
             (standard_launcher.newargv argv os.moduleFileName)]) := by
  constructor
  · intro hq
    rw [radie_wmain_fail rootrun os argv hq, standard_wmain_fail Py_Main os argv hq]
    exact ⟨rfl, rfl, rfl, rfl, rfl, rfl⟩
  · intro hq
    rw [standard_wmain_ok Py_Main os argv hq]
    refine ⟨?_, rfl⟩
    cases hp : os.getenv os.env "PATH".toList with
    | none =>
      rw [radie_wmain_nopath rootrun os argv hq hp]
      exact ⟨_, rfl⟩
    | some v =>
      rw [radie_wmain_ok rootrun os argv v hq hp]
      exact ⟨_, rfl⟩

/-- Witness of claim C4: the sample system with the query failing, and the
sample system with the query succeeding. -/
theorem C4_self_path_failure_witness :
    sampleOSNoSelfPath.moduleFileNameRet = 0 ∧
    (radie.wmain false sampleOSNoSelfPath ["radie.exe".toList]).outcome
      = Outcome.returned 1 ∧
    sampleOS.moduleFileNameRet ≠ 0 ∧
    (standard_launcher.wmain countProc sampleOS ["radie.exe".toList]).trace
      = [Event.getModuleFileName,
         Event.pyMain 2
           (standard_launcher.newargv ["radie.exe".toList] sampleOS.moduleFileName)] :=
  ⟨by decide,
   ((C4_self_path_failure false countProc sampleOSNoSelfPath ["radie.exe".toList]).1
      (by decide)).1,
   by decide,
   ((C4_self_path_failure false countProc sampleOS ["radie.exe".toList]).2 (by decide)).2⟩

/-! ## The exit status -/

/-- Claim C6, refuted as stated. On the sample system the dynamic-load launcher
started as `radie.exe x.csv` gets past the self-path query, loads the library,
resolves `Py_Main`, and the entry point returns `4`; it is not the case that
`wmain` returns `4` with nothing done between the two returns: the six local
string objects are destroyed in between. -/
theorem C6_operations_after_return :
    sampleOS.moduleFileNameRet ≠ 0 ∧
    Event.loadLibrary "C:\\radie\\runtime\\python36.dll".toList
      ∈ (radie.wmain false sampleOS ["radie.exe".toList, "x.csv".toList]).trace ∧
    sampleOS.loadLibrary "C:\\radie\\runtime\\python36.dll".toList = some 1 ∧
    sampleOS.getProcAddress (some 1) "Py_Main" = some countProc ∧
    countProc 4 (radie.newargv ["radie.exe".toList, "x.csv".toList]) = some 4 ∧
    ¬ ((radie.wmain false sampleOS ["radie.exe".toList, "x.csv".toList]).outcome
          = Outcome.returned 4 ∧
        (radie.wmain false sampleOS ["radie.exe".toList, "x.csv".toList]).destroyed = []) :=
  ⟨by decide, by decide, by decide, rfl, rfl, by decide⟩

/-- Claim C6, amended. In a run whose self-path query succeeds: in the
dynamic-load launcher, if the library load is made and returns a handle,
`Py_Main` resolves from that handle to `f`, and `f` called with the built
vector returns `k`, then `wmain` returns `k`, the call of the entry point is
the last of the calls the run records, and what happens between the return of
the entry point and the return of `wmain` is the destruction of the local
objects `python_dll_path`, `path_string`, `ss`, `python_path`, `python_home` and
`executable_dir_string`, in this order; in the static-link launcher, if the
linked entry point called with the built vector returns `k`, then `wmain`
returns `k`, that call is the last of the calls the run records, and no object
is destroyed in between. -/
theorem C6_exit_code (rootrun : Bool) (Py_Main : Proc) (os : OS) (argv : List WString)
    (k : Int) (hq : os.moduleFileNameRet ≠ 0) :
    (∀ p h f, Event.loadLibrary p ∈ (radie.wmain rootrun os argv).trace →
      os.loadLibrary p = some h →
      os.getProcAddress (some h) "Py_Main" = some f →
      f (argv.length + 2) (radie.newargv argv) = some k →
      (radie.wmain rootrun os argv).outcome = Outcome.returned k ∧
      (radie.wmain rootrun os argv).trace.getLast?
        = some (Event.pyMain (argv.length + 2) (radie.newargv argv)) ∧
      (radie.wmain rootrun os argv).destroyed
        = ["python_dll_path", "path_string", "ss", "python_path", "python_home",
           "executable_dir_string"]) ∧
    (Py_Main (argv.length + 1) (standard_launcher.newargv argv os.moduleFileName) = some k →
      (standard_launcher.wmain Py_Main os argv).outcome = Outcome.returned k ∧
      (standard_launcher.wmain Py_Main os argv).trace.getLast?
        = some (Event.pyMain (argv.length + 1)
            (standard_launcher.newargv argv os.moduleFileName)) ∧
      (standard_launcher.wmain Py_Main os argv).destroyed = []) := by
  constructor
  · intro p h f hload hh hf hk
    obtain ⟨_, v, hv⟩ := radie_load_inv rootrun os argv p hload
    rw [radie_wmain_ok rootrun os argv v hq hv] at hload ⊢
    have hp : p = radie.python_dll_path rootrun (os.pathRemoveFileSpec os.moduleFileName) := by
      simpa using hload
    subst hp
    refine ⟨?_, by simp, ?_⟩
    · simp only [hh, hf, callThrough, hk]
    · simp only [hh, hf, callThrough, hk, radie.unwind, radie.locals]
  · intro hk
    rw [standard_wmain_ok Py_Main os argv hq]
    refine ⟨?_, by simp, rfl⟩
    simp only [callThrough, hk]

/-- Witness of the amended claim C6: on the sample system the entry point
returns the argument count `4`, and so does the dynamic-load launcher. -/
theorem C6_exit_code_witness :
    sampleOS.moduleFileNameRet ≠ 0 ∧
    Event.loadLibrary "C:\\radie\\runtime\\python36.dll".toList
      ∈ (radie.wmain false sampleOS ["radie.exe".toList, "x.csv".toList]).trace ∧
    (radie.wmain false sampleOS ["radie.exe".toList, "x.csv".toList]).outcome
      = Outcome.returned 4 :=
  ⟨by decide, by decide,
   ((C6_exit_code false countProc sampleOS ["radie.exe".toList, "x.csv".toList] 4
      (by decide)).1 "C:\\radie\\runtime\\python36.dll".toList 1 countProc
      (by decide) rfl rfl rfl).1⟩

/-! ## The environment the runtime is loaded in -/

/-- Claim C8. Dynamic-load launcher: in every run in which the library load is
made, the calls are, in this order, the self-path query, the assignments of
`PYTHONHOME`, of `PYTHONPATH` and of `PATH`, the library load, the look-ups of
`Py_Main` and `Py_SetPath`, and the call of the entry point; and the load is
made in the same way whatever the outcomes of the assignments are. -/
theorem C8_step_order (rootrun : Bool) (os : OS) (argv : List WString) (p : WString)
    (hload : Event.loadLibrary p ∈ (radie.wmain rootrun os argv).trace) :
    (∃ V, os.getenv os.env "PATH".toList = some V ∧
      (radie.wmain rootrun os argv).trace
        = [Event.getModuleFileName,
           Event.wputenv ("PYTHONHOME=".toList ++ os.pathRemoveFileSpec os.moduleFileName
              ++ radie.runtime_dir rootrun),
           Event.wputenv ("PYTHONPATH=".toList ++ os.pathRemoveFileSpec os.moduleFileName
              ++ "\\apps".toList),
           Event.wputenv ("PATH=".toList ++ os.pathRemoveFileSpec os.moduleFileName
              ++ radie.runtime_dir rootrun ++ ";".toList ++ V.map os.widen),
           Event.loadLibrary (os.pathRemoveFileSpec os.moduleFileName
              ++ radie.runtime_dir rootrun ++ "\\python36.dll".toList),
           Event.getProcAddress "Py_Main",
           Event.getProcAddress "Py_SetPath",
           Event.pyMain (argv.length + 2) (radie.newargv argv)]) ∧
    (∀ fails : WString → Bool,
      (radie.wmain rootrun (os.withPutenvFails fails) argv).trace
        = (radie.wmain rootrun os argv).trace) := by
  obtain ⟨hq, V, hV⟩ := radie_load_inv rootrun os argv p hload
  refine ⟨⟨V, hV, ?_⟩, ?_⟩
  · rw [radie_wmain_ok rootrun os argv V hq hV]
    rfl
  · intro fails
    rw [radie_wmain_ok rootrun os argv V hq hV,
      radie_wmain_ok rootrun (os.withPutenvFails fails) argv V hq hV]
    rfl

/-- Witness of claim C8: the run on the sample system. -/
theorem C8_step_order_witness :
    Event.loadLibrary "C:\\radie\\runtime\\python36.dll".toList
      ∈ (radie.wmain false sampleOS ["radie.exe".toList]).trace ∧
    (radie.wmain false (sampleOS.withPutenvFails (fun _ => true)) ["radie.exe".toList]).trace
      = (radie.wmain false sampleOS ["radie.exe".toList]).trace :=
  ⟨by decide,
   (C8_step_order false sampleOS ["radie.exe".toList]
      "C:\\radie\\runtime\\python36.dll".toList (by decide)).2 (fun _ => true)⟩

end Launcher
